import Mathlib

/-!
Verification of the response-interpretation policy of
`src/cvias/vision_language/vllm_client.py` (class `VisionLanguageModelVLLM`).

The embedding abstracts the HTTP transport: one chat-completion response is a
value of `ModelResponse`, carrying the generated text, the literal string of
the first generated token, and the value `exp(logprob)` of that token.  Since
every statement of interest constrains only `exp(p)` (never `p` itself), the
embedding carries the exponential directly as a rational number; Python floats
are abstracted to exact rationals throughout.
-/

/-- Result record built at the end of `detect` (fields as the code sets them;
the two score fields are rationals in place of Python floats). -/
structure DetectedObject where
  name : String
  model_name : String
  confidence : ℚ
  probability : ℚ
  number_of_detection : ℕ
  is_detected : Bool

/-- One chat-completion response, as `infer_with_image` reads it:
`text` is `chat_response.choices[0].message.content`, `firstToken` is
`chat_response.choices[0].logprobs.content[0].token`, and `expLogprob` is
`math.exp` of the logprob field of that token. -/
structure ModelResponse where
  text : String
  firstToken : String
  expLogprob : ℚ

/-- Transport client, `OpenAI(api_key=..., base_url=...)`. -/
structure OpenAIClient where
  api_key : String
  base_url : String

/-- State set up by the constructor (lines 17-34). -/
structure VisionLanguageModelVLLM where
  client : Option OpenAIClient
  parallel_inference : Bool
  model_name : String
  model : String
  endpoint : String
  api_key : String

/-- Constructor body, lines 24-34: a shared client is created at construction
exactly when `parallel_inference` is false. -/
def VisionLanguageModelVLLM.init (endpoint api_key model : String)
    (parallel_inference : Bool) : VisionLanguageModelVLLM :=
  { client :=
      if parallel_inference then none
      else some { api_key := api_key, base_url := endpoint }
    parallel_inference := parallel_inference
    model_name := model
    model := model
    endpoint := endpoint
    api_key := api_key }

/-- Client selection inside `infer_with_image`, lines 60-67: in parallel mode
a fresh client is built from the stored api key and endpoint, otherwise the
request goes through the client stored at construction (the code reaches it
through the attribute access `self.client.stream`; the attribute is transport
detail and is abstracted away, what matters is which client object serves the
call). -/
def clientForCall (self : VisionLanguageModelVLLM) : Option OpenAIClient :=
  if self.parallel_inference then
    some { api_key := self.api_key, base_url := self.endpoint }
  else self.client

/-- Lines 87-91: confidence is `exp(logprob)` of the first generated token
when its literal text is exactly "Yes" or "No", and 0.0 otherwise. -/
def inferConfidence (r : ModelResponse) : ℚ :=
  if r.firstToken = "Yes" ∨ r.firstToken = "No" then r.expLogprob else 0

/-- Body of `infer_with_image`, lines 43-92.  The leading assertion
(lines 52-54) fails exactly when both `image` and `image_path` are `None`; it
is modelled as an `Except.error` carrying the assertion message, raised
without looking at the model response.  Image loading, base64 encoding and
the request itself are transport and are abstracted: the answer of the network
is the `r` argument, and the function returns the `(response, confidence)`
pair of line 92. -/
def infer_with_image {α : Type} (_self : VisionLanguageModelVLLM)
    (image : Option α) (image_path : Option String) (r : ModelResponse) :
    Except String (String × ℚ) :=
  if image.isSome || image_path.isSome then
    Except.ok (r.text, inferConfidence r)
  else
    Except.error "One of 'image' or 'image_path' must be defined."

/-- Does `pat` occur as a leading block of the text? -/
def matchesAt : List Char → List Char → Bool
  | [], _ => true
  | _ :: _, [] => false
  | p :: ps, c :: cs => p == c && matchesAt ps cs

/-- Does `pat` occur contiguously anywhere in the text? -/
def containsSub (pat : List Char) : List Char → Bool
  | [] => matchesAt pat []
  | c :: cs => matchesAt pat (c :: cs) || containsSub pat cs

/-- Line 129: `"yes" in response.lower()` (ASCII lowering, which is all the
prompt-constrained responses exercise). -/
def hasYesSub (s : String) : Bool :=
  containsSub "yes".toList (s.toList.map Char.toLower)

/-- Start code points of the decimal-digit ranges of Unicode 15.0, general
category Nd, which is the character class the Python pattern `\d` matches on
a str.  Every Nd range holds ten characters whose digit values run 0-9 in
code-point order; the mathematical alphanumeric digits 1D7CE-1D7FF form five
such consecutive runs. -/
def ndRangeStarts : List ℕ :=
  [0x30, 0x660, 0x6F0, 0x7C0, 0x966, 0x9E6, 0xA66, 0xAE6, 0xB66, 0xBE6,
   0xC66, 0xCE6, 0xD66, 0xDE6, 0xE50, 0xED0, 0xF20, 0x1040, 0x1090, 0x17E0,
   0x1810, 0x1946, 0x19D0, 0x1A80, 0x1A90, 0x1B50, 0x1BB0, 0x1C40, 0x1C50,
   0xA620, 0xA8D0, 0xA900, 0xA9D0, 0xA9F0, 0xAA50, 0xABF0, 0xFF10,
   0x104A0, 0x10D30, 0x11066, 0x110F0, 0x11136, 0x111D0, 0x112F0, 0x11450,
   0x114D0, 0x11650, 0x116C0, 0x11730, 0x118E0, 0x11950, 0x11C50, 0x11D50,
   0x11DA0, 0x11F50, 0x16A60, 0x16AC0, 0x16B50,
   0x1D7CE, 0x1D7D8, 0x1D7E2, 0x1D7EC, 0x1D7F6,
   0x1E140, 0x1E2F0, 0x1E4F0, 0x1E950, 0x1FBF0]

/-- Unicode-aware digit test of the Python pattern `\d` on a str: membership
in general category Nd (every decimal digit, not only ASCII 0-9). -/
def pyIsDigit (c : Char) : Bool :=
  ndRangeStarts.any (fun s => s ≤ c.toNat && c.toNat ≤ s + 9)

/-- Decimal value of one Nd digit, as Python `float` reads it: the offset of
the character from the start of its Nd range. -/
def pyDigitVal (c : Char) : ℕ :=
  match ndRangeStarts.find? (fun s => s ≤ c.toNat && c.toNat ≤ s + 9) with
  | some s => c.toNat - s
  | none => 0

/-- Decimal value of a digit run, most significant digit first. -/
def digitsToNat (l : List Char) : ℕ :=
  l.foldl (fun a c => 10 * a + pyDigitVal c) 0

/-- Lines 153-156: `re.search` with pattern `\d+(\.\d+)?` followed by `float`
on the matched text.  The first match starts at the leftmost digit, takes the
maximal digit run there, and extends over `.` plus a further nonempty digit
run when present.  `\d` matches every Unicode decimal digit (category Nd),
while the escaped `\.` matches only the ASCII full stop, code 46; `float` of
the matched text is its exact decimal value, reading each Nd digit at its
decimal digit value. -/
def firstNumber : List Char → Option ℚ
  | [] => none
  | c :: cs =>
    if pyIsDigit c then
      let ip := List.takeWhile pyIsDigit (c :: cs)
      let rest := List.dropWhile pyIsDigit (c :: cs)
      match rest with
      | r :: r2 =>
        if r.toNat = 46 then
          let fp := List.takeWhile pyIsDigit r2
          if fp.length = 0 then some (digitsToNat ip : ℚ)
          else some ((digitsToNat ip : ℚ) + (digitsToNat fp : ℚ) / (10 : ℚ) ^ fp.length)
        else some (digitsToNat ip : ℚ)
      | [] => some (digitsToNat ip : ℚ)
    else firstNumber cs

/-- String wrapper for the regex search of line 153. -/
def searchFloat (s : String) : Option ℚ :=
  firstNumber s.toList

/-- Nearest integer with ties to even: the rounding Python `round` applies,
stated on the exact value. -/
def roundHalfEven (q : ℚ) : ℤ :=
  if q - ⌊q⌋ < 1 / 2 then ⌊q⌋
  else if 1 / 2 < q - ⌊q⌋ then ⌊q⌋ + 1
  else if ⌊q⌋ % 2 = 0 then ⌊q⌋ else ⌊q⌋ + 1

/-- Rounding `round(x, 3)` of lines 172-173, on the exact value. -/
def pyRound3 (q : ℚ) : ℚ :=
  (roundHalfEven (q * 1000) : ℚ) / 1000

/-- Mode A branch bodies, lines 129-137: the pair (confidence, detected)
after the branch on `"yes" in response.lower()` and the threshold clamp.
Line 137 then copies confidence into probability on every path, which makes
the inner assignment of line 134 redundant. -/
def modeAOutcome (threshold confidence0 : ℚ) (response : String) : ℚ × Bool :=
  if hasYesSub response then
    if confidence0 ≤ threshold then (0, false) else (confidence0, true)
  else (confidence0, false)

/-- Mode B confidence, lines 153-163: the first decimal number of the text,
defaulting to 0.10 when none is found, scaled by `* 1 / 10` and capped at 1.0.
The handler `except SyntaxError` of lines 157-161 repeats the same search and
is unreachable, because `re.search` and `float` raise no `SyntaxError`; the
embedding therefore has a single path. -/
def modeBConfidence (response : String) : ℚ :=
  min ((searchFloat response).getD (1 / 10) * 1 / 10) 1

/-- Response interpretation of `detect`, lines 113-176, applied to the
`(response, confidence)` pair that `infer_with_image` returned.  Both modes
round the two scores to 3 decimals and record one detection in the final
constructor call (lines 169-176); Mode B marks detected unless the capped
confidence is at most the threshold (lines 165-167). -/
def interpretResponse (self : VisionLanguageModelVLLM)
    (scene_description : String) (threshold : ℚ)
    (confidence_as_token_probability : Bool)
    (response : String) (confidence0 : ℚ) : DetectedObject :=
  if confidence_as_token_probability then
    { name := scene_description
      model_name := self.model_name
      confidence := pyRound3 (modeAOutcome threshold confidence0 response).1
      probability := pyRound3 (modeAOutcome threshold confidence0 response).1
      number_of_detection := 1
      is_detected := (modeAOutcome threshold confidence0 response).2 }
  else
    { name := scene_description
      model_name := self.model_name
      confidence := pyRound3 (modeBConfidence response)
      probability := pyRound3 (modeBConfidence response)
      number_of_detection := 1
      is_detected := if modeBConfidence response ≤ threshold then false else true }

/-- Body of `detect`, lines 94-176: one inference call with
`image := frame_img` (so the assertion of `infer_with_image` passes), then
interpretation of the response under the selected scoring mode.  A raised
error would propagate. -/
def detect {α : Type} (self : VisionLanguageModelVLLM) (frame_img : α)
    (scene_description : String) (threshold : ℚ)
    (confidence_as_token_probability : Bool) (r : ModelResponse) :
    Except String DetectedObject :=
  match infer_with_image self (some frame_img) none r with
  | Except.error e => Except.error e
  | Except.ok (response, confidence) =>
    Except.ok (interpretResponse self scene_description threshold
      confidence_as_token_probability response confidence)

/-- Sample construction, with the endpoint, key and model of the demo entry
point (lines 180-184). -/
def sampleSelf : VisionLanguageModelVLLM :=
  VisionLanguageModelVLLM.init "http://localhost:8000/v1" "empty"
    "OpenGVLab/InternVL2-8B" false

/- ------------------------------------------------------------------ -/
/- Helper lemmas.                                                      -/
/- ------------------------------------------------------------------ -/

theorem detect_eq_ok {α : Type} (self : VisionLanguageModelVLLM) (img : α)
    (desc : String) (th : ℚ) (mode : Bool) (r : ModelResponse) :
    detect self img desc th mode r =
      Except.ok (interpretResponse self desc th mode r.text (inferConfidence r)) :=
  rfl

theorem roundHalfEven_intCast (n : ℤ) : roundHalfEven (n : ℚ) = n := by
  unfold roundHalfEven
  rw [Int.floor_intCast]
  norm_num

theorem roundHalfEven_nonneg {q : ℚ} (h : 0 ≤ q) : 0 ≤ roundHalfEven q := by
  have h0 : 0 ≤ ⌊q⌋ := Int.floor_nonneg.mpr h
  unfold roundHalfEven
  split_ifs <;> omega

theorem roundHalfEven_le {q : ℚ} {m : ℤ} (h : q ≤ (m : ℚ)) :
    roundHalfEven q ≤ m := by
  have hfl : ⌊q⌋ ≤ m := by
    have := Int.floor_le_floor h
    simpa using this
  unfold roundHalfEven
  split_ifs with h1 h2 h3
  · exact hfl
  · -- here 1/2 < q - ⌊q⌋, so ⌊q⌋ < q ≤ m and hence ⌊q⌋ < m
    have hlt : (⌊q⌋ : ℚ) < q := by linarith
    have : (⌊q⌋ : ℚ) < (m : ℚ) := lt_of_lt_of_le hlt h
    have : ⌊q⌋ < m := by exact_mod_cast this
    omega
  · exact hfl
  · have hq : (1 : ℚ) / 2 ≤ q - ⌊q⌋ := le_of_not_lt h1
    have hlt : (⌊q⌋ : ℚ) < q := by linarith
    have : (⌊q⌋ : ℚ) < (m : ℚ) := lt_of_lt_of_le hlt h
    have : ⌊q⌋ < m := by exact_mod_cast this
    omega

theorem pyRound3_eq_self {q : ℚ} (n : ℤ) (hq : q * 1000 = (n : ℚ)) :
    pyRound3 q = q := by
  unfold pyRound3
  rw [hq, roundHalfEven_intCast, ← hq]
  field_simp

theorem pyRound3_zero : pyRound3 0 = 0 :=
  pyRound3_eq_self 0 (by norm_num)

theorem pyRound3_nonneg {q : ℚ} (h : 0 ≤ q) : 0 ≤ pyRound3 q := by
  unfold pyRound3
  have : (0 : ℤ) ≤ roundHalfEven (q * 1000) :=
    roundHalfEven_nonneg (by positivity)
  have h1 : (0 : ℚ) ≤ (roundHalfEven (q * 1000) : ℚ) := by exact_mod_cast this
  positivity

theorem pyRound3_le_one {q : ℚ} (h : q ≤ 1) : pyRound3 q ≤ 1 := by
  unfold pyRound3
  have hle : q * 1000 ≤ ((1000 : ℤ) : ℚ) := by push_cast; linarith
  have h1 : roundHalfEven (q * 1000) ≤ 1000 := roundHalfEven_le hle
  have h2 : (roundHalfEven (q * 1000) : ℚ) ≤ 1000 := by exact_mod_cast h1
  linarith

theorem pyRound3_thousandth (q : ℚ) : ∃ n : ℤ, pyRound3 q = (n : ℚ) / 1000 :=
  ⟨roundHalfEven (q * 1000), rfl⟩

theorem firstNumber_nonneg :
    ∀ l : List Char, ∀ v : ℚ, firstNumber l = some v → 0 ≤ v := by
  intro l
  induction l with
  | nil => intro v h; simp [firstNumber] at h
  | cons c cs ih =>
    intro v h
    rw [firstNumber] at h
    by_cases hc : pyIsDigit c
    · rw [if_pos hc] at h
      rcases hrest : List.dropWhile pyIsDigit (c :: cs) with _ | ⟨r, r2⟩ <;>
        simp only [hrest] at h
      · simp only [Option.some.injEq] at h
        subst h
        positivity
      · split at h
        · split at h <;> simp only [Option.some.injEq] at h <;> subst h <;> positivity
        · simp only [Option.some.injEq] at h
          subst h
          positivity
    · rw [if_neg hc] at h
      exact ih v h

theorem modeAOutcome_fst (th c0 : ℚ) (resp : String) :
    (modeAOutcome th c0 resp).1 = 0 ∨ (modeAOutcome th c0 resp).1 = c0 := by
  unfold modeAOutcome
  split_ifs <;> simp

theorem modeBConfidence_nonneg (resp : String) : 0 ≤ modeBConfidence resp := by
  unfold modeBConfidence
  rcases h : searchFloat resp with _ | v
  · simp only [h, Option.getD_none]
    norm_num
  · have hv : 0 ≤ v := firstNumber_nonneg _ v h
    simp only [h, Option.getD_some]
    have : 0 ≤ v * 1 / 10 := by positivity
    exact le_min this (by norm_num)

theorem modeBConfidence_le_one (resp : String) : modeBConfidence resp ≤ 1 :=
  min_le_right _ _

theorem inferConfidence_bounds {r : ModelResponse}
    (h0 : 0 ≤ r.expLogprob) (h1 : r.expLogprob ≤ 1) :
    0 ≤ inferConfidence r ∧ inferConfidence r ≤ 1 := by
  unfold inferConfidence
  split_ifs <;> constructor <;> first | assumption | norm_num

theorem interpretResponse_prob_eq_conf (self : VisionLanguageModelVLLM)
    (desc : String) (th : ℚ) (mode : Bool) (resp : String) (c0 : ℚ) :
    (interpretResponse self desc th mode resp c0).probability =
      (interpretResponse self desc th mode resp c0).confidence := by
  unfold interpretResponse
  split <;> rfl

theorem interpretResponse_modeA (self : VisionLanguageModelVLLM) (desc : String)
    (th : ℚ) (resp : String) (c0 : ℚ) :
    interpretResponse self desc th true resp c0 =
      { name := desc
        model_name := self.model_name
        confidence := pyRound3 (modeAOutcome th c0 resp).1
        probability := pyRound3 (modeAOutcome th c0 resp).1
        number_of_detection := 1
        is_detected := (modeAOutcome th c0 resp).2 } :=
  rfl

theorem interpretResponse_modeB (self : VisionLanguageModelVLLM) (desc : String)
    (th : ℚ) (resp : String) (c0 : ℚ) :
    interpretResponse self desc th false resp c0 =
      { name := desc
        model_name := self.model_name
        confidence := pyRound3 (modeBConfidence resp)
        probability := pyRound3 (modeBConfidence resp)
        number_of_detection := 1
        is_detected := if modeBConfidence resp ≤ th then false else true } :=
  rfl

/-- Fidelity check of the Unicode-aware digit model at a fullwidth-digit
text: "７.５" (fullwidth seven and five around an ASCII full stop) parses to
7.5, exactly as `re.search` and `float` read it, so such a text does not take
the no-number fallback. -/
theorem searchFloat_fullwidth : searchFloat "７.５" = some (15 / 2) := by
  rw [show searchFloat "７.５" =
      some (((7 : ℕ) : ℚ) + ((5 : ℕ) : ℚ) / (10 : ℚ) ^ (1 : ℕ)) from rfl]
  norm_num

/-- Fidelity check of the Unicode-aware digit model at a mixed-script text:
"１2" (fullwidth one, ASCII two) parses as the single two-digit number 12,
exactly as the one `\d+` match of `re.search` and `float` read it. -/
theorem searchFloat_mixed : searchFloat "１2" = some (12 : ℚ) := by
  rw [show searchFloat "１2" = some (((12 : ℕ) : ℚ)) from rfl]
  norm_num

/- ------------------------------------------------------------------ -/
/- Claim theorems.                                                     -/
/- ------------------------------------------------------------------ -/

/-- Claim C2: for every model response, `infer_with_image` returns confidence
`exp(logprob)` of the first generated token when the literal text of that
token is exactly "Yes" or exactly "No", and confidence 0.0 for any other
first token. -/
theorem infer_with_image_confidence_spec {α : Type}
    (self : VisionLanguageModelVLLM) (img : α) (r : ModelResponse) :
    ((r.firstToken = "Yes" ∨ r.firstToken = "No") →
      infer_with_image self (some img) none r =
        Except.ok (r.text, r.expLogprob)) ∧
    (r.firstToken ≠ "Yes" → r.firstToken ≠ "No" →
      infer_with_image self (some img) none r =
        Except.ok (r.text, (0 : ℚ))) := by
  constructor
  · intro h
    simp [infer_with_image, inferConfidence, h]
  · intro h1 h2
    simp [infer_with_image, inferConfidence, h1, h2]

/-- Witness for claim C2, at a response whose first token is "Yes" with
emitted probability mass 1. -/
theorem infer_with_image_confidence_spec_witness :
    infer_with_image sampleSelf (some ()) none
        { text := "Yes", firstToken := "Yes", expLogprob := 1 } =
      Except.ok ("Yes", (1 : ℚ)) :=
  (infer_with_image_confidence_spec sampleSelf ()
    { text := "Yes", firstToken := "Yes", expLogprob := 1 }).1 (Or.inl rfl)

/-- Claim C7: `infer_with_image` fails with the invalid-argument error exactly
when both the image and the image path are absent; with at least one of the
two supplied the error branch is unreachable.  The error is raised by the
assertion at the top of the function, before the request is built, which the
embedding reflects by the failure not depending on the model response. -/
theorem infer_with_image_requires_image {α : Type}
    (self : VisionLanguageModelVLLM) (image : Option α)
    (image_path : Option String) (r : ModelResponse) :
    (∃ e : String, infer_with_image self image image_path r = Except.error e) ↔
      image = none ∧ image_path = none := by
  cases image <;> cases image_path <;> simp [infer_with_image]

/-- Claim C8: on every branch of both scoring modes, the probability field of
the object returned by `detect` equals its confidence field. -/
theorem probability_eq_confidence {α : Type} (self : VisionLanguageModelVLLM)
    (img : α) (desc : String) (th : ℚ) (mode : Bool) (r : ModelResponse)
    (d : DetectedObject) (hd : detect self img desc th mode r = Except.ok d) :
    d.probability = d.confidence := by
  rw [detect_eq_ok] at hd
  injection hd with hd
  subst hd
  exact interpretResponse_prob_eq_conf self desc th mode r.text (inferConfidence r)

/-- Witness for claim C8, Mode A at a "Yes" response. -/
theorem probability_eq_confidence_witness :
    (interpretResponse sampleSelf "cat" 1 true "Yes"
        (inferConfidence
          { text := "Yes", firstToken := "Yes", expLogprob := 1 })).probability =
      (interpretResponse sampleSelf "cat" 1 true "Yes"
        (inferConfidence
          { text := "Yes", firstToken := "Yes", expLogprob := 1 })).confidence :=
  probability_eq_confidence sampleSelf () "cat" 1 true
    { text := "Yes", firstToken := "Yes", expLogprob := 1 } _ rfl

/-- Claim C9: when `parallel_inference` is true no client is stored at
construction and the call uses a client freshly built from the stored api key
and endpoint; when it is false the call uses exactly the client stored at
construction, which was built from the same two fields. -/
theorem client_lifetime_by_mode (endpoint api_key model : String) :
    (VisionLanguageModelVLLM.init endpoint api_key model true).client = none ∧
    clientForCall (VisionLanguageModelVLLM.init endpoint api_key model true) =
      some { api_key := api_key, base_url := endpoint } ∧
    clientForCall (VisionLanguageModelVLLM.init endpoint api_key model false) =
      (VisionLanguageModelVLLM.init endpoint api_key model false).client ∧
    (VisionLanguageModelVLLM.init endpoint api_key model false).client =
      some { api_key := api_key, base_url := endpoint } :=
  ⟨rfl, rfl, rfl, rfl⟩

/-- Claim C1 counterexample: Mode A, first token "No" with exp(p) = 1/20 and
threshold 1/10, so exp(p) is at or below the threshold.  The claim demands
confidence 0.0 regardless of the text, yet the returned object carries
confidence 1/20: the clamp happens only on the branch whose text contains
"yes". -/
theorem modeA_clamp_counterexample :
    (1 : ℚ) / 20 ≤ 1 / 10 ∧
    detect sampleSelf () "cat" (1 / 10) true
        { text := "No", firstToken := "No", expLogprob := 1 / 20 } =
      Except.ok
        { name := "cat"
          model_name := "OpenGVLab/InternVL2-8B"
          confidence := 1 / 20
          probability := 1 / 20
          number_of_detection := 1
          is_detected := false } ∧
    (1 : ℚ) / 20 ≠ 0 := by
  refine ⟨by norm_num, ?_, by norm_num⟩
  have h : detect sampleSelf () "cat" (1 / 10) true
      { text := "No", firstToken := "No", expLogprob := 1 / 20 } =
      Except.ok
        { name := "cat"
          model_name := "OpenGVLab/InternVL2-8B"
          confidence := pyRound3 (1 / 20)
          probability := pyRound3 (1 / 20)
          number_of_detection := 1
          is_detected := false } := rfl
  rw [h, show pyRound3 ((1 : ℚ) / 20) = 1 / 20 from pyRound3_eq_self 50 (by norm_num)]

/-- Claim C1 (amended): in Mode A, whenever the emitted probability mass
exp(p) of the first token is positive and at most the threshold, the returned
object is not-detected; and when moreover the response text contains "yes"
(case-insensitively) its confidence is clamped to 0.0.  When the text does
not contain "yes" the confidence keeps its computed value instead. -/
theorem modeA_below_threshold_not_detected {α : Type}
    (self : VisionLanguageModelVLLM) (img : α) (desc : String) (th : ℚ)
    (r : ModelResponse) (d : DetectedObject)
    (he : 0 < r.expLogprob) (hth : r.expLogprob ≤ th)
    (hd : detect self img desc th true r = Except.ok d) :
    d.is_detected = false ∧ (hasYesSub r.text = true → d.confidence = 0) := by
  rw [detect_eq_ok] at hd
  injection hd with hd
  subst hd
  have hc : inferConfidence r ≤ th := by
    unfold inferConfidence
    split_ifs
    · exact hth
    · linarith
  have hsnd : (modeAOutcome th (inferConfidence r) r.text).2 = false := by
    unfold modeAOutcome
    by_cases hy : hasYesSub r.text = true
    · rw [if_pos hy, if_pos hc]
    · rw [if_neg hy]
  have hfst : hasYesSub r.text = true →
      (modeAOutcome th (inferConfidence r) r.text).1 = 0 := by
    intro hy
    unfold modeAOutcome
    rw [if_pos hy, if_pos hc]
  rw [interpretResponse_modeA]
  exact ⟨hsnd, fun hy => by rw [hfst hy, pyRound3_zero]⟩

/-- Witness for claim C1 (amended) at text "yes", first token "Yes" with
probability mass 1 and threshold 1. -/
theorem modeA_below_threshold_not_detected_witness :
    (0 : ℚ) < 1 ∧ (1 : ℚ) ≤ 1 ∧
    (interpretResponse sampleSelf "cat" 1 true "yes"
        (inferConfidence
          { text := "yes", firstToken := "Yes", expLogprob := 1 })).is_detected =
      false ∧
    (interpretResponse sampleSelf "cat" 1 true "yes"
        (inferConfidence
          { text := "yes", firstToken := "Yes", expLogprob := 1 })).confidence =
      0 := by
  refine ⟨by decide, le_refl 1, ?_, ?_⟩
  · exact (modeA_below_threshold_not_detected sampleSelf () "cat" 1
      { text := "yes", firstToken := "Yes", expLogprob := 1 } _
      (by decide) (le_refl 1) rfl).1
  · exact (modeA_below_threshold_not_detected sampleSelf () "cat" 1
      { text := "yes", firstToken := "Yes", expLogprob := 1 } _
      (by decide) (le_refl 1) rfl).2 (by decide)

/-- Claim C6 counterexample: Mode A, response text "YES" (which contains
"yes" case-insensitively) with first token "YES" and exp(p) = 9/10 above the
threshold 0.  The claim demands detection with confidence round(exp(p), 3),
yet the first token is not exactly "Yes" or "No", so the computed confidence
is 0.0, which is at most the threshold: the object comes back not-detected
with confidence 0.0. -/
theorem modeA_yes_text_counterexample :
    hasYesSub "YES" = true ∧
    (0 : ℚ) < 9 / 10 ∧
    detect sampleSelf () "cat" 0 true
        { text := "YES", firstToken := "YES", expLogprob := 9 / 10 } =
      Except.ok
        { name := "cat"
          model_name := "OpenGVLab/InternVL2-8B"
          confidence := 0
          probability := 0
          number_of_detection := 1
          is_detected := false } ∧
    pyRound3 ((9 : ℚ) / 10) ≠ 0 := by
  refine ⟨by decide, by norm_num, ?_, ?_⟩
  · have h : detect sampleSelf () "cat" 0 true
        { text := "YES", firstToken := "YES", expLogprob := 9 / 10 } =
        Except.ok
          { name := "cat"
            model_name := "OpenGVLab/InternVL2-8B"
            confidence := pyRound3 0
            probability := pyRound3 0
            number_of_detection := 1
            is_detected := false } := rfl
    rw [h, pyRound3_zero]
  · rw [show pyRound3 ((9 : ℚ) / 10) = 9 / 10 from pyRound3_eq_self 900 (by norm_num)]
    norm_num

/-- Claim C6 (amended): in Mode A, for every model response whose text
contains "yes" (case-insensitive), whose first generated token is exactly
"Yes" or "No", and whose exp(p) exceeds the threshold, `detect` returns
detected with confidence round(exp(p), 3). -/
theorem modeA_above_threshold_detected {α : Type}
    (self : VisionLanguageModelVLLM) (img : α) (desc : String) (th : ℚ)
    (r : ModelResponse) (d : DetectedObject)
    (htok : r.firstToken = "Yes" ∨ r.firstToken = "No")
    (hyes : hasYesSub r.text = true)
    (hth : th < r.expLogprob)
    (hd : detect self img desc th true r = Except.ok d) :
    d.is_detected = true ∧ d.confidence = pyRound3 r.expLogprob := by
  rw [detect_eq_ok] at hd
  injection hd with hd
  subst hd
  have hc0 : inferConfidence r = r.expLogprob := by
    unfold inferConfidence
    rw [if_pos htok]
  have hout : modeAOutcome th (inferConfidence r) r.text = (r.expLogprob, true) := by
    unfold modeAOutcome
    rw [hc0, if_pos hyes, if_neg (not_le.mpr hth)]
  rw [interpretResponse_modeA, hout]
  exact ⟨rfl, rfl⟩

/-- Witness for claim C6 (amended) at text "Yes", first token "Yes" with
probability mass 1 and threshold 0. -/
theorem modeA_above_threshold_detected_witness :
    hasYesSub "Yes" = true ∧ (0 : ℚ) < 1 ∧
    (interpretResponse sampleSelf "cat" 0 true "Yes"
        (inferConfidence
          { text := "Yes", firstToken := "Yes", expLogprob := 1 })).is_detected =
      true ∧
    (interpretResponse sampleSelf "cat" 0 true "Yes"
        (inferConfidence
          { text := "Yes", firstToken := "Yes", expLogprob := 1 })).confidence =
      pyRound3 1 := by
  refine ⟨by decide, by decide, ?_, ?_⟩
  · exact (modeA_above_threshold_detected sampleSelf () "cat" 0
      { text := "Yes", firstToken := "Yes", expLogprob := 1 } _
      (Or.inl rfl) (by decide) (by decide) rfl).1
  · exact (modeA_above_threshold_detected sampleSelf () "cat" 0
      { text := "Yes", firstToken := "Yes", expLogprob := 1 } _
      (Or.inl rfl) (by decide) (by decide) rfl).2

/-- Claim C10: in Mode A with a nonnegative threshold, whenever the first
generated token is neither exactly "Yes" nor exactly "No", the object comes
back not-detected with confidence 0.0, whether or not the text contains
"yes": the computed confidence 0.0 can never exceed the threshold. -/
theorem modeA_unparsed_token_zero {α : Type}
    (self : VisionLanguageModelVLLM) (img : α) (desc : String) (th : ℚ)
    (r : ModelResponse) (d : DetectedObject)
    (h1 : r.firstToken ≠ "Yes") (h2 : r.firstToken ≠ "No") (hth : 0 ≤ th)
    (hd : detect self img desc th true r = Except.ok d) :
    d.is_detected = false ∧ d.confidence = 0 := by
  rw [detect_eq_ok] at hd
  injection hd with hd
  subst hd
  have hc0 : inferConfidence r = 0 := by
    unfold inferConfidence
    rw [if_neg]
    intro h
    rcases h with h | h
    · exact h1 h
    · exact h2 h
  have hout : modeAOutcome th (inferConfidence r) r.text = (0, false) := by
    unfold modeAOutcome
    rw [hc0]
    by_cases hy : hasYesSub r.text = true
    · rw [if_pos hy, if_pos hth]
    · rw [if_neg hy]
  rw [interpretResponse_modeA, hout]
  exact ⟨rfl, pyRound3_zero⟩

/-- Witness for claim C10 at text "yes" whose first token is the lowercase
"yes" (not a legal answer token), threshold 0. -/
theorem modeA_unparsed_token_zero_witness :
    ("yes" : String) ≠ "Yes" ∧ (0 : ℚ) ≤ 0 ∧
    (interpretResponse sampleSelf "cat" 0 true "yes"
        (inferConfidence
          { text := "yes", firstToken := "yes", expLogprob := 1 })).is_detected =
      false ∧
    (interpretResponse sampleSelf "cat" 0 true "yes"
        (inferConfidence
          { text := "yes", firstToken := "yes", expLogprob := 1 })).confidence =
      0 := by
  refine ⟨by decide, by decide, ?_, ?_⟩
  · exact (modeA_unparsed_token_zero sampleSelf () "cat" 0
      { text := "yes", firstToken := "yes", expLogprob := 1 } _
      (by decide) (by decide) (by decide) rfl).1
  · exact (modeA_unparsed_token_zero sampleSelf () "cat" 0
      { text := "yes", firstToken := "yes", expLogprob := 1 } _
      (by decide) (by decide) (by decide) rfl).2

/-- Claim C3: in Mode B the first decimal number of the response text is
scaled by one tenth, capped at 1.0, used (after rounding) as both confidence
and probability, and the object is detected unless the capped value is at
most the threshold, in which case it is not-detected with the confidence kept
as is.  In particular text "7.5 — fairly confident" parses to 7.5, giving
confidence 0.75, which at threshold 0.1 is detected. -/
theorem modeB_scaling_and_threshold {α : Type}
    (self : VisionLanguageModelVLLM) (img : α) (desc : String)
    (th v : ℚ) (r : ModelResponse) (d : DetectedObject)
    (hv : searchFloat r.text = some v)
    (hd : detect self img desc th false r = Except.ok d) :
    (d.confidence = pyRound3 (min (v * 1 / 10) 1) ∧
     d.probability = pyRound3 (min (v * 1 / 10) 1) ∧
     d.is_detected = (if min (v * 1 / 10) 1 ≤ th then false else true)) ∧
    (searchFloat "7.5 — fairly confident" = some (15 / 2) ∧
     pyRound3 (min ((15 : ℚ) / 2 * 1 / 10) 1) = 3 / 4 ∧
     ¬(min ((15 : ℚ) / 2 * 1 / 10) 1 ≤ 1 / 10)) := by
  rw [detect_eq_ok] at hd
  injection hd with hd
  subst hd
  have hmb : modeBConfidence r.text = min (v * 1 / 10) 1 := by
    unfold modeBConfidence
    rw [hv]
    rfl
  have hmin : min ((15 : ℚ) / 2 * 1 / 10) 1 = 3 / 4 := by
    rw [min_eq_left (by norm_num)]
    norm_num
  rw [interpretResponse_modeB, hmb]
  refine ⟨⟨rfl, rfl, rfl⟩, ?_, ?_, ?_⟩
  · rw [show searchFloat "7.5 — fairly confident" =
        some (((7 : ℕ) : ℚ) + ((5 : ℕ) : ℚ) / (10 : ℚ) ^ (1 : ℕ)) from rfl]
    norm_num
  · rw [hmin, show pyRound3 ((3 : ℚ) / 4) = 3 / 4 from pyRound3_eq_self 750 (by norm_num)]
  · rw [hmin]
    norm_num

/-- Witness for claim C3 at text "7" with threshold 1. -/
theorem modeB_scaling_and_threshold_witness :
    searchFloat "7" = some ((7 : ℕ) : ℚ) ∧
    (interpretResponse sampleSelf "cat" 1 false "7"
        (inferConfidence
          { text := "7", firstToken := "7", expLogprob := 1 })).confidence =
      pyRound3 (min (((7 : ℕ) : ℚ) * 1 / 10) 1) := by
  refine ⟨rfl, ?_⟩
  exact (modeB_scaling_and_threshold sampleSelf () "cat" 1 ((7 : ℕ) : ℚ)
    { text := "7", firstToken := "7", expLogprob := 1 } _ rfl rfl).1.1

/-- Claim C4: in Mode B a response text with no decimal-number substring is
not an error: the confidence defaults to 0.10 before the division by 10, so
the returned object carries confidence 0.10 / 10 = 0.01. -/
theorem modeB_no_number_fallback {α : Type}
    (self : VisionLanguageModelVLLM) (img : α) (desc : String)
    (th : ℚ) (r : ModelResponse)
    (hnone : searchFloat r.text = none) :
    detect self img desc th false r =
      Except.ok (interpretResponse self desc th false r.text (inferConfidence r)) ∧
    (interpretResponse self desc th false r.text (inferConfidence r)).confidence =
      1 / 100 := by
  refine ⟨detect_eq_ok self img desc th false r, ?_⟩
  have hmb : modeBConfidence r.text = 1 / 100 := by
    unfold modeBConfidence
    rw [hnone]
    show min ((1 : ℚ) / 10 * 1 / 10) 1 = 1 / 100
    rw [min_eq_left (by norm_num)]
    norm_num
  rw [interpretResponse_modeB, hmb,
    show pyRound3 ((1 : ℚ) / 100) = 1 / 100 from pyRound3_eq_self 10 (by norm_num)]

/-- Witness for claim C4 at text "I cannot determine", threshold 1. -/
theorem modeB_no_number_fallback_witness :
    searchFloat "I cannot determine" = none ∧
    (interpretResponse sampleSelf "cat" 1 false "I cannot determine"
        (inferConfidence
          { text := "I cannot determine", firstToken := "I",
            expLogprob := 1 })).confidence = 1 / 100 := by
  refine ⟨rfl, ?_⟩
  exact (modeB_no_number_fallback sampleSelf () "cat" 1
    { text := "I cannot determine", firstToken := "I", expLogprob := 1 } rfl).2

/-- Claim C5: for every scene description, threshold, scoring mode and model
response (whose emitted probability mass is a probability, i.e. lies in
[0, 1]), the returned object has confidence and probability in [0.0, 1.0] and
equal to an integer number of thousandths (3-decimal rounding), and counts
exactly one detection. -/
theorem detect_result_well_formed {α : Type}
    (self : VisionLanguageModelVLLM) (img : α) (desc : String)
    (th : ℚ) (mode : Bool) (r : ModelResponse) (d : DetectedObject)
    (h0 : 0 ≤ r.expLogprob) (h1 : r.expLogprob ≤ 1)
    (hd : detect self img desc th mode r = Except.ok d) :
    (0 ≤ d.confidence ∧ d.confidence ≤ 1) ∧
    (0 ≤ d.probability ∧ d.probability ≤ 1) ∧
    (∃ n : ℤ, d.confidence = (n : ℚ) / 1000) ∧
    (∃ n : ℤ, d.probability = (n : ℚ) / 1000) ∧
    d.number_of_detection = 1 := by
  rw [detect_eq_ok] at hd
  injection hd with hd
  subst hd
  cases mode
  · rw [interpretResponse_modeB]
    have hb0 := modeBConfidence_nonneg r.text
    have hb1 := modeBConfidence_le_one r.text
    exact ⟨⟨pyRound3_nonneg hb0, pyRound3_le_one hb1⟩,
      ⟨pyRound3_nonneg hb0, pyRound3_le_one hb1⟩,
      pyRound3_thousandth _, pyRound3_thousandth _, rfl⟩
  · rw [interpretResponse_modeA]
    have hc := inferConfidence_bounds h0 h1
    have hfst := modeAOutcome_fst th (inferConfidence r) r.text
    have ha0 : 0 ≤ (modeAOutcome th (inferConfidence r) r.text).1 := by
      rcases hfst with h | h <;> simp [h, hc.1]
    have ha1 : (modeAOutcome th (inferConfidence r) r.text).1 ≤ 1 := by
      rcases hfst with h | h <;> simp [h, hc.2]
    exact ⟨⟨pyRound3_nonneg ha0, pyRound3_le_one ha1⟩,
      ⟨pyRound3_nonneg ha0, pyRound3_le_one ha1⟩,
      pyRound3_thousandth _, pyRound3_thousandth _, rfl⟩

/-- Witness for claim C5 in Mode A at a "Yes" response with probability mass
1 and threshold 1. -/
theorem detect_result_well_formed_witness :
    (0 : ℚ) ≤ 1 ∧ (1 : ℚ) ≤ 1 ∧
    ((0 ≤ (interpretResponse sampleSelf "cat" 1 true "Yes"
        (inferConfidence
          { text := "Yes", firstToken := "Yes", expLogprob := 1 })).confidence ∧
      (interpretResponse sampleSelf "cat" 1 true "Yes"
        (inferConfidence
          { text := "Yes", firstToken := "Yes", expLogprob := 1 })).confidence ≤ 1) ∧
     (0 ≤ (interpretResponse sampleSelf "cat" 1 true "Yes"
        (inferConfidence
          { text := "Yes", firstToken := "Yes", expLogprob := 1 })).probability ∧
      (interpretResponse sampleSelf "cat" 1 true "Yes"
        (inferConfidence
          { text := "Yes", firstToken := "Yes", expLogprob := 1 })).probability ≤ 1) ∧
     (∃ n : ℤ, (interpretResponse sampleSelf "cat" 1 true "Yes"
        (inferConfidence
          { text := "Yes", firstToken := "Yes", expLogprob := 1 })).confidence =
          (n : ℚ) / 1000) ∧
     (∃ n : ℤ, (interpretResponse sampleSelf "cat" 1 true "Yes"
        (inferConfidence
          { text := "Yes", firstToken := "Yes", expLogprob := 1 })).probability =
          (n : ℚ) / 1000) ∧
     (interpretResponse sampleSelf "cat" 1 true "Yes"
        (inferConfidence
          { text := "Yes", firstToken := "Yes", expLogprob := 1 })).number_of_detection =
       1) := by
  refine ⟨by decide, le_refl 1, ?_⟩
  exact detect_result_well_formed sampleSelf () "cat" 1 true
    { text := "Yes", firstToken := "Yes", expLogprob := 1 } _
    (by decide) (le_refl 1) rfl
